import Mathlib

/-!
Shallow embedding of the Response accumulation and rendering pipeline of
`src/response.ts` (class `Response`, `renderTabSnapshot`, `renderTabsMarkdown`,
`trim`) and of the network request renderer (`renderRequest`) from the
network-requests tool file, together with theorems settling the spec claims.

Modelling conventions:
- JavaScript arrays of strings become `List String`; `array.join('\n')`
  becomes `joinLines` (defined below with exactly JS `join` semantics).
- The file system is modelled as an explicit list of (path, content) pairs
  threaded through the functions that write files (`fs.writeFile` appends).
- `new Date().toISOString()` is an effect: each function that derives a
  timestamp receives the ISO string as an explicit argument `ts`.
- External collaborators (`renderModalStates` from tab.js, `JSON.parse`,
  `JSON.stringify`, the snapshot capture) are passed as parameters.
- `boolean | undefined` fields become `Option Bool`.
-/

/-- JS `array.join("\n")`: empty list gives `""`, no trailing separator. -/
def joinLines : List String → String
  | [] => ""
  | [x] => x
  | x :: y :: xs => x ++ "\n" ++ joinLines (y :: xs)

/-- JS `string.includes(sub)`: substring containment test. -/
def jsIncludes (s sub : String) : Bool :=
  (List.range (s.data.length + 1)).any fun i =>
    (s.data.drop i).take sub.data.length == sub.data

/-- The `timestamp.replace(/[:.]/g, '-')` step of `_writeDetailedOutputToFile`. -/
def encodeTimestamp (ts : String) : String :=
  ⟨ts.data.map fun c => if c = ':' ∨ c = '.' then '-' else c⟩

/-- Node `path.basename`: the part of the path after the last `/`. -/
def basename (p : String) : String :=
  ⟨p.data.foldl (fun acc c => if c = '/' then [] else acc ++ [c]) []⟩

/-- Configuration consumed by the core: `outputToFiles` switch,
`imageResponses` policy and the resolved output directory. -/
structure FullConfig where
  outputToFiles : Bool
  imageResponses : String
  outputDir : String
deriving DecidableEq, Repr

/-- Modelled from the spec: `outputFile` of config.js (not under src/) is the
output-directory resolution function; it resolves a filename to a path inside
the configured output directory. -/
def outputFile (config : FullConfig) (filename : String) : String :=
  config.outputDir ++ "/" ++ filename

/-- One download record of a TabSnapshot: the download handle is represented
by its `suggestedFilename()`, plus destination path and completion flag. -/
structure Download where
  suggestedFilename : String
  outputFile : String
  finished : Bool
deriving DecidableEq, Repr

/-- Point-in-time capture of one page (tab.js `TabSnapshot`). Console
messages are represented by their `toString()` rendering; modal states are
opaque tokens consumed only by the external modal-state renderer. -/
structure TabSnapshot where
  url : String
  title : String
  ariaSnapshot : String
  consoleMessages : List String
  downloads : List Download
  modalStates : List String
deriving DecidableEq, Repr

/-- One open tab, as consumed by `renderTabsMarkdown`: `isCurrentTab()`,
`lastTitle()` and `page.url()`. -/
structure Tab where
  isCurrentTab : Bool
  lastTitle : String
  pageUrl : String
deriving DecidableEq, Repr

/-- The context collaborator: configuration, `tabs()` and `currentTab()`. -/
structure Context where
  config : FullConfig
  tabs : List Tab
  currentTab : Option Tab
deriving DecidableEq, Repr

/-- An accumulated image: content type plus binary payload (bytes as an
opaque string). -/
structure ImageData where
  contentType : String
  data : String
deriving DecidableEq, Repr

/-- The mutable state of one `Response` object, one per tool invocation.
Field names follow the TypeScript private fields. -/
structure Response where
  _result : List String
  _code : List String
  _images : List ImageData
  _context : Context
  _includeSnapshot : Bool
  _includeTabs : Bool
  _tabSnapshot : Option TabSnapshot
  _outputFiles : List String
  toolName : String
  _isError : Option Bool
deriving DecidableEq, Repr

/-- The constructor: all collections empty, flags unset. -/
def Response.make (context : Context) (toolName : String) : Response where
  _result := []
  _code := []
  _images := []
  _context := context
  _includeSnapshot := false
  _includeTabs := false
  _tabSnapshot := none
  _outputFiles := []
  toolName := toolName
  _isError := none

def Response.addResult (r : Response) (result : String) : Response :=
  { r with _result := r._result ++ [result] }

def Response.addError (r : Response) (error : String) : Response :=
  { r with _result := r._result ++ [error], _isError := some true }

def Response.isError (r : Response) : Option Bool :=
  r._isError

def Response.result (r : Response) : String :=
  joinLines r._result

def Response.addCode (r : Response) (code : String) : Response :=
  { r with _code := r._code ++ [code] }

def Response.code (r : Response) : String :=
  joinLines r._code

def Response.addImage (r : Response) (image : ImageData) : Response :=
  { r with _images := r._images ++ [image] }

def Response.images (r : Response) : List ImageData :=
  r._images

def Response.setIncludeSnapshot (r : Response) : Response :=
  { r with _includeSnapshot := true }

def Response.setIncludeTabs (r : Response) : Response :=
  { r with _includeTabs := true }

/-- The file system: the sequence of (path, content) writes performed so far. -/
abbrev FS := List (String × String)

/-- The filename generated by `_writeDetailedOutputToFile`:
`${this.toolName}-${timestamp}.txt` with `[:.]` replaced by `-`. -/
def writeFilename (toolName ts : String) : String :=
  toolName ++ "-" ++ encodeTimestamp ts ++ ".txt"

/-- Method `_writeDetailedOutputToFile`: derive the filename from the tool name and
the current ISO timestamp `ts`, resolve it, persist the content, record the
path, return it. -/
def Response._writeDetailedOutputToFile (r : Response) (detailedContent : String)
    (ts : String) (fs : FS) : Response × FS × String :=
  let filename := writeFilename r.toolName ts
  let filepath := outputFile r._context.config filename
  ({ r with _outputFiles := r._outputFiles ++ [filepath] },
   fs ++ [(filepath, detailedContent)], filepath)

/-- Method `addResultWithFileOption`: route to a file when `outputToFiles` is on and
the content is longer than 500 characters, otherwise inline. -/
def Response.addResultWithFileOption (r : Response) (result : String)
    (type : String) (ts : String) (fs : FS) : Response × FS :=
  if r._context.config.outputToFiles ∧ result.length > 500 then
    let w := r._writeDetailedOutputToFile result ts fs
    let r1 := w.1.addResult (type ++ ": " ++ basename w.2.2)
    let r2 := r1.addResult "Use: head/grep/tail/cat"
    (r2, w.2.1)
  else
    (r.addResult result, fs)

/-- Method `_shouldIncludeSnapshot`. -/
def Response._shouldIncludeSnapshot (r : Response) : Bool :=
  if r._context.config.outputToFiles then r._tabSnapshot.isSome
  else r._includeSnapshot || r._includeTabs

/-- Method `finish()`: capture the snapshot when requested and a current tab exists
(the captured snapshot is supplied by the environment), then refresh every
tab's cached title (the fresh titles are supplied by the environment). -/
def Response.finish (r : Response) (captured : TabSnapshot)
    (titles : List String) : Response :=
  let r1 :=
    if r._includeSnapshot ∧ r._context.currentTab.isSome then
      { r with _tabSnapshot := some captured }
    else r
  { r1 with _context := { r1._context with
      tabs := (r1._context.tabs.zip titles).map fun p =>
        { p.1 with lastTitle := p.2 } } }

def Response.tabSnapshot (r : Response) : Option TabSnapshot :=
  r._tabSnapshot

/-- Function `trim(text, maxLength)`. -/
def trim (text : String) (maxLength : Nat) : String :=
  if text.length ≤ maxLength then text
  else text.take maxLength ++ "..."

/-- Function `renderTabSnapshot`: console section, downloads section, page state. -/
def renderTabSnapshot (tabSnapshot : TabSnapshot) (config : FullConfig) : String :=
  let consoleLines : List String :=
    if tabSnapshot.consoleMessages.length ≠ 0 then
      (if config.outputToFiles then
        ["### Console messages (" ++ toString tabSnapshot.consoleMessages.length
           ++ " total)",
         "- " ++ toString tabSnapshot.consoleMessages.length
           ++ " console messages captured"]
      else
        ["### New console messages"]
          ++ ((tabSnapshot.consoleMessages.take 5).map fun message =>
                "- " ++ trim message 100)
          ++ (if tabSnapshot.consoleMessages.length > 5 then
                ["- ... and " ++ toString (tabSnapshot.consoleMessages.length - 5)
                   ++ " more console messages"]
              else []))
        ++ [""]
    else []
  let downloadLines : List String :=
    if tabSnapshot.downloads.length ≠ 0 then
      ["### Downloads"]
        ++ (tabSnapshot.downloads.map fun entry =>
              if entry.finished then
                "- Downloaded file " ++ entry.suggestedFilename
                  ++ " to " ++ entry.outputFile
              else
                "- Downloading file " ++ entry.suggestedFilename ++ " ...")
        ++ [""]
    else []
  let pageLines : List String :=
    ["### Page state",
     "- Page URL: " ++ tabSnapshot.url,
     "- Page Title: " ++ tabSnapshot.title,
     "- Page Snapshot:",
     "```yaml",
     tabSnapshot.ariaSnapshot,
     "```"]
  joinLines (consoleLines ++ downloadLines ++ pageLines)

/-- Function `renderTabsMarkdown`. -/
def renderTabsMarkdown (tabs : List Tab) (force : Bool) : List String :=
  if tabs.length = 1 ∧ force = false then []
  else if tabs.length = 0 then
    ["### Open tabs",
     "No open tabs. Use the \"browser_navigate\" tool to navigate to a page first.",
     ""]
  else
    ["### Open tabs"]
      ++ (tabs.enum.map fun p =>
            "- " ++ toString p.1 ++ ":"
              ++ (if p.2.isCurrentTab then " (current)" else "")
              ++ " [" ++ p.2.lastTitle ++ "] (" ++ p.2.pageUrl ++ ")")
      ++ [""]

/-- One protocol content block: text, or an image (binary payload plus
mime type; the base64 transport encoding is external). -/
inductive ContentBlock where
  | text (value : String)
  | image (data : String) (mimeType : String)
deriving DecidableEq, Repr

/-- Method `serialize()`: assemble result, code, tab list and snapshot/modal section
into one text block, then append image blocks. `rms` is the external
`renderModalStates` collaborator, `ts` the ISO timestamp used for any file
written here. Returns the content blocks, the error flag, and the file
system after any writes. -/
def Response.serializeLines (r : Response) (rms : List String → List String)
    (ts : String) (fs : FS) : List String × Response × FS :=
  let response : List String := []
  let response := response ++
    (if r._result.length ≠ 0 then ["### Result", joinLines r._result, ""] else [])
  let response := response ++
    (if r._code.length ≠ 0 then
      ["### Ran Playwright code\n```js\n" ++ joinLines r._code ++ "\n```", ""]
     else [])
  let response := response ++
    (if r._includeSnapshot || r._includeTabs then
      renderTabsMarkdown r._context.tabs r._includeTabs
     else [])
  let shouldIncludeSnapshot := r._shouldIncludeSnapshot
  match r._tabSnapshot with
  | some snap =>
    if shouldIncludeSnapshot ∧ snap.modalStates.length ≠ 0 then
      let modalContent := joinLines (rms snap.modalStates)
      if r._context.config.outputToFiles then
        let w := r._writeDetailedOutputToFile modalContent ts fs
        (response ++ ["### Snapshot: " ++ basename w.2.2,
                      "Use: head/grep/tail/cat", ""], w.1, w.2.1)
      else
        (response ++ [modalContent, ""], r, fs)
    else if shouldIncludeSnapshot then
      let snapshotContent := renderTabSnapshot snap r._context.config
      if r._context.config.outputToFiles then
        let w := r._writeDetailedOutputToFile snapshotContent ts fs
        (response ++ ["### Page info: " ++ basename w.2.2,
                      "Use: head/grep/tail/cat", ""], w.1, w.2.1)
      else
        (response ++ [snapshotContent, ""], r, fs)
    else (response, r, fs)
  | none => (response, r, fs)

def Response.serialize (r : Response) (rms : List String → List String)
    (ts : String) (fs : FS) : List ContentBlock × Option Bool × FS :=
  let step := r.serializeLines rms ts fs
  let content : List ContentBlock := [ContentBlock.text (joinLines step.1)]
  let content := content ++
    (if r._context.config.imageResponses ≠ "omit" then
      r._images.map fun image => ContentBlock.image image.data image.contentType
     else [])
  (content, r._isError, step.2.2)

/-- The text of the first (main) content block produced by `serialize`. -/
def serializeText (r : Response) (rms : List String → List String)
    (ts : String) (fs : FS) : String :=
  match (r.serialize rms ts fs).1 with
  | ContentBlock.text t :: _ => t
  | _ => ""

/-- The file system after `serialize`. -/
def serializeFS (r : Response) (rms : List String → List String)
    (ts : String) (fs : FS) : FS :=
  (r.serialize rms ts fs).2.2

/-- One mutating operation a tool handler (or the framework) can perform on a
Response. Operations that consume environment inputs (timestamp, captured
snapshot, refreshed titles) carry them as payload. -/
inductive ROp where
  | addResult (text : String)
  | addError (text : String)
  | addCode (text : String)
  | addImage (image : ImageData)
  | setIncludeSnapshot
  | setIncludeTabs
  | addResultWithFileOption (text type ts : String)
  | finish (captured : TabSnapshot) (titles : List String)

/-- Apply one operation to the Response state and the file system. -/
def applyOp : Response × FS → ROp → Response × FS
  | (r, fs), ROp.addResult t => (r.addResult t, fs)
  | (r, fs), ROp.addError t => (r.addError t, fs)
  | (r, fs), ROp.addCode t => (r.addCode t, fs)
  | (r, fs), ROp.addImage i => (r.addImage i, fs)
  | (r, fs), ROp.setIncludeSnapshot => (r.setIncludeSnapshot, fs)
  | (r, fs), ROp.setIncludeTabs => (r.setIncludeTabs, fs)
  | (r, fs), ROp.addResultWithFileOption t ty ts => r.addResultWithFileOption t ty ts fs
  | (r, fs), ROp.finish c tl => (r.finish c tl, fs)

/-- Apply a sequence of operations in order. -/
def applyOps (s : Response × FS) (ops : List ROp) : Response × FS :=
  ops.foldl applyOp s

/-- An interleaved `addResult`/`addError` call: `true` marks an error call. -/
def mergeCall (p : Bool × String) : ROp :=
  if p.1 then ROp.addError p.2 else ROp.addResult p.2

/-- A network request as consumed by `renderRequest`: method, url,
`content-type` header, and the outcome of `postData()` (which may throw, or
return null). -/
structure NetRequest where
  method : String
  url : String
  contentType : Option String
  postData : Except Unit (Option String)

/-- A network response as consumed by `renderRequest`: status, status text,
`content-type` header, and the outcome of `body()` (which may throw). -/
structure NetResponse where
  status : Nat
  statusText : String
  contentType : Option String
  body : Except Unit String

/-- Function `renderRequest` from the network-requests tool file. `jsonParse` and
`stringify` model the external `JSON.parse` and
`JSON.stringify(-, null, 2)`; every body-read failure is resolved to a
textual fallback. -/
def renderRequest {J : Type} (request : NetRequest) (response : Option NetResponse)
    (jsonParse : String → Option J) (stringify : J → String) : String :=
  let result : List String := ["[" ++ request.method.toUpper ++ "] " ++ request.url]
  let result := result ++
    (if (match request.contentType with
         | some ct => jsIncludes ct "application/json"
         | none => false)
        || jsIncludes request.url "graphql" then
      match request.postData with
      | Except.ok (some postData) => ["Request Body: " ++ postData]
      | _ => []
     else [])
  let result := result ++
    (match response with
     | none => []
     | some resp =>
       ["=> [" ++ toString resp.status ++ "] " ++ resp.statusText] ++
       (if (match resp.contentType with
            | some ct => jsIncludes ct "application/json"
            | none => false)
           || jsIncludes request.url "graphql" then
         match resp.body with
         | Except.ok b =>
           (match jsonParse b with
            | some jsonBody => ["Response Body: " ++ stringify jsonBody]
            | none => ["Response Body (raw): " ++ b.take 1000])
         | Except.error _ => ["Response Body: [Unable to read]"]
        else []))
  joinLines result

/-- Predicate: `sub` occurs as a contiguous substring of `s`. -/
def hasSub (sub s : String) : Prop :=
  ∃ a b, s.data = a ++ sub.data ++ b

/-- Modelled from the spec: the size-gated routing variant — file exactly
when file output is enabled and the content exceeds 500 characters. -/
def sizeGatedRoutesToFile (outputToFiles : Bool) (len : Nat) : Bool :=
  outputToFiles && decide (len > 500)

/-- Modelled from the spec: the kind-gated routing variant — file exactly
when file output is enabled, regardless of size. -/
def kindGatedRoutesToFile (outputToFiles : Bool) (_len : Nat) : Bool :=
  outputToFiles

/-- Observed routing decision of one `addResultWithFileOption` call: did it
write a file? -/
def addResultWroteFile (r : Response) (content type ts : String) (fs : FS) : Bool :=
  decide ((r.addResultWithFileOption content type ts fs).2.length ≠ fs.length)

/-- Observed routing decision of the snapshot section in `serialize`: did it
write a file? -/
def serializeWroteFile (r : Response) (rms : List String → List String)
    (ts : String) (fs : FS) : Bool :=
  decide ((serializeFS r rms ts fs).length ≠ fs.length)

/-! Concrete sample inputs used by counterexamples and witnesses. -/

def cfgOff : FullConfig := { outputToFiles := false, imageResponses := "auto", outputDir := "out" }

def cfgOn : FullConfig := { outputToFiles := true, imageResponses := "auto", outputDir := "out" }

def sampleTab : Tab := { isCurrentTab := true, lastTitle := "T", pageUrl := "https://x.test" }

def ctxOff : Context := { config := cfgOff, tabs := [sampleTab], currentTab := some sampleTab }

def ctxOn : Context := { config := cfgOn, tabs := [sampleTab], currentTab := some sampleTab }

def snapA : TabSnapshot :=
  { url := "https://a.test", title := "A", ariaSnapshot := "- heading a"
    consoleMessages := [], downloads := [], modalStates := [] }

def snapB : TabSnapshot :=
  { url := "https://b.test", title := "B", ariaSnapshot := "- heading b"
    consoleMessages := [], downloads := [], modalStates := [] }

/-- A snapshot with seven console messages, one of them longer than 100
characters. -/
def snapSeven : TabSnapshot :=
  { url := "https://c.test", title := "C", ariaSnapshot := "- heading c"
    consoleMessages := ["m1", "m2", String.mk (List.replicate 120 'x'), "m4", "m5", "m6", "m7"]
    downloads := [], modalStates := [] }

/-- A string of length 501, to cross the size threshold. -/
def longContent : String := String.mk (List.replicate 501 'y')

/-- A Response with file output disabled, one result line, snapshot
requested and captured. -/
def rOff : Response :=
  (((Response.make ctxOff "tool").addResult "ok").setIncludeSnapshot).finish snapA ["T"]

/-- A Response with file output enabled, snapshot requested and captured. -/
def rSnapOn : Response :=
  ((Response.make ctxOn "tool").setIncludeSnapshot).finish snapA ["T"]

/-- A snapshot with an open modal dialog. -/
def snapModal : TabSnapshot :=
  { url := "https://m.test", title := "M", ariaSnapshot := "- heading m"
    consoleMessages := [], downloads := [], modalStates := ["alert dialog"] }

/-- A Response with file output enabled whose captured snapshot has an open
modal dialog. -/
def rModalOn : Response :=
  ((Response.make ctxOn "tool").setIncludeSnapshot).finish snapModal ["T"]

/-! ## Helper lemmas -/

theorem joinLines_cons (x : String) (l : List String) (h : l ≠ []) :
    joinLines (x :: l) = x ++ "\n" ++ joinLines l := by
  cases l with
  | nil => exact absurd rfl h
  | cons y ys => rfl

theorem mem_joinLines_hasSub {x : String} {l : List String} (h : x ∈ l) :
    hasSub x (joinLines l) := by
  induction l with
  | nil => cases h
  | cons y ys ih =>
    cases ys with
    | nil =>
      rcases List.mem_singleton.mp h with rfl
      exact ⟨[], [], by simp [joinLines]⟩
    | cons z zs =>
      rcases List.mem_cons.mp h with h | h
      · subst h
        refine ⟨[], ("\n" ++ joinLines (z :: zs)).data, ?_⟩
        rw [joinLines_cons x (z :: zs) (by simp)]
        simp [String.data_append]
      · rcases ih h with ⟨a, b, hab⟩
        refine ⟨(y ++ "\n").data ++ a, b, ?_⟩
        rw [joinLines_cons y (z :: zs) (by simp)]
        simp [String.data_append, hab]

theorem exists_append_tail (A B C D : List String) :
    ∃ tail, ((A ++ B) ++ C) ++ D = A ++ tail :=
  ⟨B ++ (C ++ D), by simp [List.append_assoc]⟩

theorem exists_append_tail3 (A B C : List String) :
    ∃ tail, (A ++ B) ++ C = A ++ tail :=
  ⟨B ++ C, by simp [List.append_assoc]⟩

theorem serializeText_eq_joinLines (r : Response) (rms : List String → List String)
    (ts : String) (fs : FS) :
    serializeText r rms ts fs = joinLines (r.serializeLines rms ts fs).1 := rfl

theorem serializeFS_eq (r : Response) (rms : List String → List String)
    (ts : String) (fs : FS) :
    serializeFS r rms ts fs = (r.serializeLines rms ts fs).2.2 := rfl

/-- The lines assembled by `serialize` always start with the Result section
(when any result/error lines exist; the leading `if` keeps the statement
uniform). -/
theorem serializeLines_tail (r : Response) (rms : List String → List String)
    (ts : String) (fs : FS) :
    ∃ tail, (r.serializeLines rms ts fs).1 =
      (if r._result.length ≠ 0 then ["### Result", joinLines r._result, ""] else [])
        ++ tail := by
  simp only [Response.serializeLines]
  cases h : r._tabSnapshot with
  | none =>
    simp only [List.nil_append]
    exact exists_append_tail3 _ _ _
  | some snap =>
    simp only [List.nil_append]
    split_ifs <;>
      first
        | exact exists_append_tail _ _ _ _
        | exact exists_append_tail3 _ _ _

/-- When any result/error lines exist, the serialized text starts with the
Result section, with the accumulated lines joined inline. -/
theorem serializeText_result_first (r : Response) (rms : List String → List String)
    (ts : String) (fs : FS) (h : r._result ≠ []) :
    ∃ rest, serializeText r rms ts fs =
      "### Result" ++ "\n" ++ joinLines r._result ++ "\n" ++ rest := by
  rcases serializeLines_tail r rms ts fs with ⟨tail, htail⟩
  rw [serializeText_eq_joinLines, htail, if_pos (by simpa using h)]
  refine ⟨joinLines ("" :: tail), ?_⟩
  rw [List.cons_append, List.cons_append, List.cons_append, List.nil_append]
  rw [joinLines_cons _ _ (by simp), joinLines_cons _ _ (by simp)]
  simp [String.append_assoc]

/-! ## C1: snapshot capture on a second `finish()` -/

/-- C1 counterexample: the claim "if `finish()` is called a second time after
a snapshot has already been captured and stored, no second capture is
performed and the stored snapshot is unchanged" is false on the code.  With
`includeSnapshot` set and a current tab present, a first `finish` stores
`snapA`; the second `finish` re-captures and replaces the stored snapshot
with `snapB`. -/
theorem finish_twice_replaces_snapshot_cex :
    (((Response.make ctxOff "tool").setIncludeSnapshot.finish snapA ["T"]).tabSnapshot
        = some snapA)
    ∧ ((((Response.make ctxOff "tool").setIncludeSnapshot.finish snapA ["T"]).finish
          snapB ["T"]).tabSnapshot = some snapB)
    ∧ snapB ≠ snapA := by
  refine ⟨rfl, rfl, ?_⟩
  decide

/-- C1 amended: `finish()` performs a capture whenever `includeSnapshot` is
set and a current tab exists, regardless of whether a snapshot is already
attached; the stored snapshot is always replaced by the new capture.  (At
most one snapshot is attached at any time, since the field holds at most one
value.) -/
theorem finish_captures_whenever_requested (r : Response) (captured : TabSnapshot)
    (titles : List String) (h1 : r._includeSnapshot = true)
    (h2 : r._context.currentTab.isSome = true) :
    (r.finish captured titles).tabSnapshot = some captured := by
  simp [Response.finish, Response.tabSnapshot, h1, h2]

/-- Witness for C1's amended theorem at a concrete input. -/
theorem finish_captures_whenever_requested_witness :
    (((Response.make ctxOff "tool").setIncludeSnapshot.finish snapB ["T"]).tabSnapshot
        = some snapB) :=
  finish_captures_whenever_requested ((Response.make ctxOff "tool").setIncludeSnapshot)
    snapB ["T"] rfl rfl

/-! ## C2: filename uniqueness of auxiliary writes -/

/-- C2 counterexample: the claim "the naming function never produces the same
name for two different writes" is false on the code.  Two distinct writes
(with different contents) performed by the same tool in the same millisecond
produce the same path: the generated name depends only on the tool name and
the ISO timestamp, which has millisecond resolution and no random
component. -/
theorem same_millisecond_writes_collide_cex :
    (((Response.make ctxOn "browser_network_requests")._writeDetailedOutputToFile
        "content-one" "2026-10-12T10:00:00.000Z" []).2.1 =
      [("out/browser_network_requests-2026-10-12T10-00-00-000Z.txt", "content-one")])
    ∧ ((((Response.make ctxOn "browser_network_requests")._writeDetailedOutputToFile
          "content-one" "2026-10-12T10:00:00.000Z" []).1._writeDetailedOutputToFile
          "content-two" "2026-10-12T10:00:00.000Z"
          [("out/browser_network_requests-2026-10-12T10-00-00-000Z.txt", "content-one")]).2.1 =
        [("out/browser_network_requests-2026-10-12T10-00-00-000Z.txt", "content-one"),
         ("out/browser_network_requests-2026-10-12T10-00-00-000Z.txt", "content-two")])
    ∧ "content-one" ≠ "content-two" := by
  refine ⟨rfl, rfl, ?_⟩
  decide

/-- C9: for every Response with at least one result or error line, under
every configuration, routing policy environment and file system, the Result
section is the first section of the serialized text and the accumulated
result/error lines appear inline in it (never redirected to a file). -/
theorem result_section_first_inline (r : Response) (rms : List String → List String)
    (ts : String) (fs : FS) (h : r._result ≠ []) :
    ∃ rest, serializeText r rms ts fs =
      "### Result" ++ "\n" ++ joinLines r._result ++ "\n" ++ rest :=
  serializeText_result_first r rms ts fs h

/-- Witness for C9 at a concrete input (file output enabled, so the routing
policy is active, yet the Result section stays first and inline). -/
theorem result_section_first_inline_witness :
    ∃ rest, serializeText ((Response.make ctxOn "tool").addResult "ok")
        (fun _ => []) "2026-10-12T10:00:00.000Z" [] =
      "### Result" ++ "\n"
        ++ joinLines ((Response.make ctxOn "tool").addResult "ok")._result
        ++ "\n" ++ rest :=
  result_section_first_inline ((Response.make ctxOn "tool").addResult "ok")
    (fun _ => []) "2026-10-12T10:00:00.000Z" [] (by decide)

/-! ## C6: the error flag -/

theorem applyOp_isError_mono (s : Response × FS) (op : ROp)
    (h : s.1._isError = some true) : (applyOp s op).1._isError = some true := by
  rcases s with ⟨r, fs⟩
  cases op <;>
    simp_all [applyOp, Response.addResult, Response.addError, Response.addCode,
      Response.addImage, Response.setIncludeSnapshot, Response.setIncludeTabs,
      Response.finish, Response.addResultWithFileOption,
      Response._writeDetailedOutputToFile]
  · split <;> simp_all [Response.addResult]
  · split <;> simp_all

theorem applyOps_isError_iff (ops : List ROp) (r : Response) (fs : FS) :
    ((applyOps (r, fs) ops).1._isError = some true)
      ↔ (r._isError = some true ∨ ∃ t, ROp.addError t ∈ ops) := by
  induction ops generalizing r fs with
  | nil => simp [applyOps]
  | cons op rest ih =>
    have hstep : applyOps (r, fs) (op :: rest) = applyOps (applyOp (r, fs) op) rest := rfl
    rw [hstep]
    have h2 : applyOps (applyOp (r, fs) op) rest
        = applyOps ((applyOp (r, fs) op).1, (applyOp (r, fs) op).2) rest := rfl
    rw [h2, ih]
    cases op <;>
      simp_all [applyOp, Response.addResult, Response.addError, Response.addCode,
        Response.addImage, Response.setIncludeSnapshot, Response.setIncludeTabs,
        Response.finish, Response.addResultWithFileOption,
        Response._writeDetailedOutputToFile]
    · split <;> simp_all [Response.addResult]
    · split <;> simp_all

/-- C6: starting from a fresh Response, after any sequence of operations the
error flag reads `some true` iff `addError` occurred in the sequence; and
the flag is monotonic — once set, no operation clears it. -/
theorem isError_iff_addError_and_monotone (ctx : Context) (tn : String)
    (fs0 : FS) (ops : List ROp) :
    (((applyOps (Response.make ctx tn, fs0) ops).1.isError = some true)
      ↔ (∃ t, ROp.addError t ∈ ops))
    ∧ (∀ (s : Response × FS) (op : ROp), s.1.isError = some true →
        (applyOp s op).1.isError = some true) := by
  constructor
  · rw [show (applyOps (Response.make ctx tn, fs0) ops).1.isError
        = (applyOps (Response.make ctx tn, fs0) ops).1._isError from rfl]
    rw [applyOps_isError_iff]
    simp [Response.make]
  · intro s op h
    exact applyOp_isError_mono s op h

/-- Witness for C6 at concrete inputs: one `addError` among other calls sets
the flag, and a further operation keeps it set. -/
theorem isError_iff_addError_and_monotone_witness :
    ((applyOps (Response.make ctxOff "tool", [])
        [ROp.addResult "a", ROp.addError "boom", ROp.addResult "b"]).1.isError
      = some true)
    ∧ ((applyOp ((Response.make ctxOff "tool").addError "boom", [])
        (ROp.addResult "x")).1.isError = some true) :=
  ⟨(isError_iff_addError_and_monotone ctxOff "tool" []
      [ROp.addResult "a", ROp.addError "boom", ROp.addResult "b"]).1.mpr
      ⟨"boom", by simp⟩,
   (isError_iff_addError_and_monotone ctxOff "tool" [] []).2
      ((Response.make ctxOff "tool").addError "boom", []) (ROp.addResult "x") rfl⟩

/-! ## C10: `addError` and `addResult` share one ordered list -/

theorem applyOps_mergeCall_result (calls : List (Bool × String)) (r : Response) (fs : FS) :
    (applyOps (r, fs) (calls.map mergeCall)).1._result = r._result ++ calls.map Prod.snd
    ∧ (applyOps (r, fs) (calls.map mergeCall)).2 = fs := by
  induction calls generalizing r fs with
  | nil => simp [applyOps]
  | cons c cs ih =>
    rcases c with ⟨b, t⟩
    have hstep : applyOps (r, fs) (((b, t) :: cs).map mergeCall)
        = applyOps (applyOp (r, fs) (mergeCall (b, t))) (cs.map mergeCall) := rfl
    rw [hstep]
    cases b with
    | true =>
      have : applyOp (r, fs) (mergeCall (true, t)) = (r.addError t, fs) := rfl
      rw [this]
      rcases ih (r.addError t) fs with ⟨h1, h2⟩
      exact ⟨by rw [h1]; simp [Response.addError], h2⟩
    | false =>
      have : applyOp (r, fs) (mergeCall (false, t)) = (r.addResult t, fs) := rfl
      rw [this]
      rcases ih (r.addResult t) fs with ⟨h1, h2⟩
      exact ⟨by rw [h1]; simp [Response.addResult], h2⟩

/-- C10: for every interleaved sequence of `addResult`/`addError` calls on a
fresh Response, the accumulated result list holds the result and error
strings merged in call order, the `result()` accessor joins exactly that
merged list, and the serialized Result section presents it as one section
(no separate error section). -/
theorem addError_merges_into_result (calls : List (Bool × String)) (ctx : Context)
    (tn : String) (fs0 : FS) :
    ((applyOps (Response.make ctx tn, fs0) (calls.map mergeCall)).1._result
        = calls.map Prod.snd)
    ∧ ((applyOps (Response.make ctx tn, fs0) (calls.map mergeCall)).1.result
        = joinLines (calls.map Prod.snd))
    ∧ (calls ≠ [] → ∀ (rms : List String → List String) (ts : String) (fs : FS),
        ∃ rest, serializeText (applyOps (Response.make ctx tn, fs0)
            (calls.map mergeCall)).1 rms ts fs =
          "### Result" ++ "\n" ++ joinLines (calls.map Prod.snd) ++ "\n" ++ rest) := by
  have h := (applyOps_mergeCall_result calls (Response.make ctx tn) fs0).1
  have hres : (applyOps (Response.make ctx tn, fs0) (calls.map mergeCall)).1._result
      = calls.map Prod.snd := by
    rw [h]; simp [Response.make]
  refine ⟨hres, ?_, ?_⟩
  · rw [show ∀ x : Response, x.result = joinLines x._result from fun _ => rfl, hres]
  · intro hne rms ts fs
    have hne2 : (applyOps (Response.make ctx tn, fs0) (calls.map mergeCall)).1._result ≠ [] := by
      rw [hres]
      simpa using hne
    rcases serializeText_result_first _ rms ts fs hne2 with ⟨rest, hrest⟩
    rw [hres] at hrest
    exact ⟨rest, hrest⟩

/-- Witness for C10 at a concrete interleaving `addResult; addError; addResult`. -/
theorem addError_merges_into_result_witness :
    ((applyOps (Response.make ctxOff "tool", [])
        ([(false, "r1"), (true, "e1"), (false, "r2")].map mergeCall)).1._result
      = [(false, "r1"), (true, "e1"), (false, "r2")].map Prod.snd)
    ∧ (∃ rest, serializeText (applyOps (Response.make ctxOff "tool", [])
          ([(false, "r1"), (true, "e1"), (false, "r2")].map mergeCall)).1
          (fun _ => []) "2026-10-12T10:00:00.000Z" [] =
        "### Result" ++ "\n"
          ++ joinLines ([(false, "r1"), (true, "e1"), (false, "r2")].map Prod.snd)
          ++ "\n" ++ rest) :=
  ⟨(addError_merges_into_result [(false, "r1"), (true, "e1"), (false, "r2")]
      ctxOff "tool" []).1,
   (addError_merges_into_result [(false, "r1"), (true, "e1"), (false, "r2")]
      ctxOff "tool" []).2.2 (by simp) (fun _ => []) "2026-10-12T10:00:00.000Z" []⟩

/-- C2 amended: for a fixed tool name, two writes collide exactly when their
ISO timestamps encode to the same string after `[:.] → -` replacement (in
particular, two writes in the same millisecond collide); writes whose
timestamp encodings differ never produce the same filename. -/
theorem writeFilename_collides_iff_same_encoded_timestamp (t ts1 ts2 : String) :
    writeFilename t ts1 = writeFilename t ts2
      ↔ encodeTimestamp ts1 = encodeTimestamp ts2 := by
  simp [writeFilename, String.ext_iff, String.data_append]

/-! ## C4: with file output disabled, everything is inline and no file is written -/

/-- With `outputToFiles = false`, `serialize` performs no file write in any
of its branches. -/
theorem serializeFS_off (r : Response) (hOff : r._context.config.outputToFiles = false)
    (rms : List String → List String) (ts : String) (fs : FS) :
    serializeFS r rms ts fs = fs := by
  rw [serializeFS_eq]
  simp only [Response.serializeLines]
  cases h : r._tabSnapshot with
  | none => rfl
  | some snap => split_ifs <;> simp_all <;> (try split) <;> rfl

/-- C4: under a configuration with `outputToFiles = false`,
`addResultWithFileOption` never writes a file and appends its full content
inline, `serialize` leaves the file system unchanged, and the full rendered
snapshot detail (console/page content as rendered by `renderTabSnapshot`)
appears inline in the serialized text. -/
theorem outputToFiles_off_inline_no_files (r : Response)
    (hOff : r._context.config.outputToFiles = false) :
    (∀ (content type ts : String) (fs : FS),
        r.addResultWithFileOption content type ts fs = (r.addResult content, fs))
    ∧ (∀ (rms : List String → List String) (ts : String) (fs : FS),
        serializeFS r rms ts fs = fs)
    ∧ (∀ (snap : TabSnapshot) (rms : List String → List String) (ts : String) (fs : FS),
        r._tabSnapshot = some snap → snap.modalStates = [] →
        (r._includeSnapshot || r._includeTabs) = true →
        hasSub (renderTabSnapshot snap r._context.config) (serializeText r rms ts fs)) := by
  refine ⟨?_, ?_, ?_⟩
  · intro content type ts fs
    simp [Response.addResultWithFileOption, hOff]
  · intro rms ts fs
    exact serializeFS_off r hOff rms ts fs
  · intro snap rms ts fs h1 h2 h3
    rw [serializeText_eq_joinLines]
    have hshould : r._shouldIncludeSnapshot = true := by
      simp [Response._shouldIncludeSnapshot, hOff, h3]
    simp only [Response.serializeLines, h1, hshould, h2, hOff]
    apply mem_joinLines_hasSub
    simp

/-- Witness for C4 at a concrete Response with file output disabled. -/
theorem outputToFiles_off_inline_no_files_witness :
    (rOff.addResultWithFileOption "hello" "console" "2026-10-12T10:00:00.000Z" []
        = (rOff.addResult "hello", []))
    ∧ (serializeFS rOff (fun _ => []) "2026-10-12T10:00:00.000Z" [] = [])
    ∧ hasSub (renderTabSnapshot snapA rOff._context.config)
        (serializeText rOff (fun _ => []) "2026-10-12T10:00:00.000Z" []) :=
  ⟨(outputToFiles_off_inline_no_files rOff rfl).1 "hello" "console" _ [],
   (outputToFiles_off_inline_no_files rOff rfl).2.1 (fun _ => []) _ [],
   (outputToFiles_off_inline_no_files rOff rfl).2.2 snapA (fun _ => []) _ [] rfl rfl rfl⟩

/-! ## C5: size-gated routing through `addResultWithFileOption` -/

theorem foldl_basename_no_slash (l : List Char) (h : '/' ∉ l) (acc : List Char) :
    l.foldl (fun acc c => if c = '/' then [] else acc ++ [c]) acc = acc ++ l := by
  induction l generalizing acc with
  | nil => simp
  | cons c cs ih =>
    have hc : c ≠ '/' := fun hc => h (hc ▸ List.mem_cons_self c cs)
    have hcs : '/' ∉ cs := fun hm => h (List.mem_cons_of_mem c hm)
    simp only [List.foldl_cons, if_neg hc]
    rw [ih hcs]
    simp

theorem basename_outputFile (config : FullConfig) (filename : String)
    (h : '/' ∉ filename.data) : basename (outputFile config filename) = filename := by
  apply String.ext
  show ((config.outputDir ++ "/" ++ filename).data.foldl
      (fun acc c => if c = '/' then [] else acc ++ [c]) []) = filename.data
  rw [show (config.outputDir ++ "/" ++ filename).data
      = (config.outputDir.data ++ ['/']) ++ filename.data by
        simp [String.data_append]]
  rw [List.foldl_append, List.foldl_append]
  rw [foldl_basename_no_slash filename.data h]
  simp

theorem no_slash_encodeTimestamp (ts : String) (h : '/' ∉ ts.data) :
    '/' ∉ (encodeTimestamp ts).data := by
  intro hmem
  rcases List.mem_map.mp hmem with ⟨c, hc, heq⟩
  by_cases hcc : c = ':' ∨ c = '.'
  · rw [if_pos hcc] at heq
    exact absurd heq (by decide)
  · rw [if_neg hcc] at heq
    exact h (heq ▸ hc)

theorem no_slash_writeFilename (t ts : String) (h1 : '/' ∉ t.data)
    (h2 : '/' ∉ ts.data) : '/' ∉ (writeFilename t ts).data := by
  intro hmem
  rw [show (writeFilename t ts).data
      = t.data ++ "-".data ++ (encodeTimestamp ts).data ++ ".txt".data by
        simp [writeFilename, String.data_append]] at hmem
  simp only [List.mem_append] at hmem
  rcases hmem with ((hm | hm) | hm) | hm
  · exact h1 hm
  · exact absurd hm (by decide)
  · exact no_slash_encodeTimestamp ts h2 hm
  · exact absurd hm (by decide)

/-- C5: with `outputToFiles = true` and the size-gated threshold 500: content
of length ≤ 500 is appended inline to the result lines and nothing is
written; content of length > 500 is written to a file whose on-disk content
is byte-for-byte the original string, and whose basename (the generated
filename) is echoed in the result lines together with the usage hint. -/
theorem size_gated_routing (r : Response) (content type ts : String) (fs : FS)
    (hOn : r._context.config.outputToFiles = true) :
    (content.length ≤ 500 →
        r.addResultWithFileOption content type ts fs = (r.addResult content, fs))
    ∧ (content.length > 500 →
        ((r.addResultWithFileOption content type ts fs).2
            = fs ++ [(outputFile r._context.config (writeFilename r.toolName ts), content)])
        ∧ ('/' ∉ r.toolName.data → '/' ∉ ts.data →
            (r.addResultWithFileOption content type ts fs).1._result
              = r._result ++ [type ++ ": " ++ writeFilename r.toolName ts,
                              "Use: head/grep/tail/cat"])) := by
  constructor
  · intro hle
    rw [Response.addResultWithFileOption, if_neg (by omega)]
  · intro hgt
    rw [Response.addResultWithFileOption, if_pos ⟨hOn, hgt⟩]
    refine ⟨rfl, ?_⟩
    intro hs1 hs2
    show (r._result ++ [type ++ ": " ++ basename
        (outputFile r._context.config (writeFilename r.toolName ts))])
        ++ ["Use: head/grep/tail/cat"]
      = r._result ++ [type ++ ": " ++ writeFilename r.toolName ts,
                      "Use: head/grep/tail/cat"]
    rw [basename_outputFile r._context.config (writeFilename r.toolName ts)
        (no_slash_writeFilename r.toolName ts hs1 hs2)]
    simp

theorem longContent_length : longContent.length = 501 := by
  rw [longContent, String.length_mk, List.length_replicate]

/-- Witness for C5: a 5-character string stays inline; a 501-character string
is routed to a file with its content intact and its basename echoed. -/
theorem size_gated_routing_witness :
    (rSnapOn.addResultWithFileOption "short" "console" "2026-10-12T10:00:00.000Z" []
        = (rSnapOn.addResult "short", []))
    ∧ ((rSnapOn.addResultWithFileOption longContent "console"
          "2026-10-12T10:00:00.000Z" []).2
        = [(outputFile rSnapOn._context.config
              (writeFilename rSnapOn.toolName "2026-10-12T10:00:00.000Z"), longContent)])
    ∧ ((rSnapOn.addResultWithFileOption longContent "console"
          "2026-10-12T10:00:00.000Z" []).1._result
        = rSnapOn._result
            ++ ["console" ++ ": " ++ writeFilename rSnapOn.toolName "2026-10-12T10:00:00.000Z",
                "Use: head/grep/tail/cat"]) := by
  refine ⟨(size_gated_routing rSnapOn "short" "console" "2026-10-12T10:00:00.000Z" [] rfl).1
      (by decide), ?_, ?_⟩
  · have h := (size_gated_routing rSnapOn longContent "console"
        "2026-10-12T10:00:00.000Z" [] rfl).2 (by simp [longContent_length])
    simpa using h.1
  · have h := (size_gated_routing rSnapOn longContent "console"
        "2026-10-12T10:00:00.000Z" [] rfl).2 (by simp [longContent_length])
    exact h.2 (by decide) (by decide)

/-! ## C3: the routing-policy variants are mixed -/

/-- C3 counterexample: the claim "a single deployment uses exactly one
file-vs-inline routing variant, never mixed per-call" is false on the code.
In one invocation with `outputToFiles = true`, a 5-character content passed
to `addResultWithFileOption` stays inline (a size-gated decision), while
`serialize` routes the snapshot — itself shorter than 500 characters — to a
file (a kind-gated decision): neither variant matches both decisions. -/
theorem routing_policy_mixed_cex :
    (addResultWroteFile rSnapOn "short" "console" "2026-10-12T10:00:00.000Z" [] = false)
    ∧ (serializeWroteFile rSnapOn (fun _ => []) "2026-10-12T10:00:00.000Z" [] = true)
    ∧ ((renderTabSnapshot snapA cfgOn).length ≤ 500)
    ∧ ¬(((addResultWroteFile rSnapOn "short" "console" "2026-10-12T10:00:00.000Z" []
            = sizeGatedRoutesToFile true ("short".length))
          ∧ (serializeWroteFile rSnapOn (fun _ => []) "2026-10-12T10:00:00.000Z" []
            = sizeGatedRoutesToFile true (renderTabSnapshot snapA cfgOn).length))
        ∨ ((addResultWroteFile rSnapOn "short" "console" "2026-10-12T10:00:00.000Z" []
            = kindGatedRoutesToFile true ("short".length))
          ∧ (serializeWroteFile rSnapOn (fun _ => []) "2026-10-12T10:00:00.000Z" []
            = kindGatedRoutesToFile true (renderTabSnapshot snapA cfgOn).length))) := by
  decide

/-- C3 amended: the deployment mixes the two variants — every
`addResultWithFileOption` decision is size-gated (file exactly when
`outputToFiles` is enabled and the content exceeds 500 characters), while
the whole snapshot/modal section of `serialize` is kind-gated: whichever
content that section routes (the rendered modal states when any dialog is
open, the rendered snapshot otherwise) goes to a file exactly when
`outputToFiles` is enabled, regardless of that content's size. -/
theorem routing_policy_characterization (r : Response) (content type ts : String)
    (fs : FS) (rms : List String → List String) (snap : TabSnapshot)
    (h1 : r._tabSnapshot = some snap) :
    (addResultWroteFile r content type ts fs
        = sizeGatedRoutesToFile r._context.config.outputToFiles content.length)
    ∧ (serializeWroteFile r rms ts fs
        = kindGatedRoutesToFile r._context.config.outputToFiles
            (if snap.modalStates.length ≠ 0 then joinLines (rms snap.modalStates)
             else renderTabSnapshot snap r._context.config).length) := by
  constructor
  · have hiff : (r.addResultWithFileOption content type ts fs).2.length ≠ fs.length
        ↔ (r._context.config.outputToFiles ∧ content.length > 500) := by
      rw [Response.addResultWithFileOption]
      split_ifs with hc
      · simp [Response._writeDetailedOutputToFile, hc]
      · simp [hc]
    rw [Bool.eq_iff_iff]
    simp [addResultWroteFile, sizeGatedRoutesToFile, hiff]
  · cases hO : r._context.config.outputToFiles with
    | false =>
      have hno : serializeFS r rms ts fs = fs := serializeFS_off r hO rms ts fs
      simp [serializeWroteFile, hno, kindGatedRoutesToFile, hO]
    | true =>
      have hshould : r._shouldIncludeSnapshot = true := by
        simp [Response._shouldIncludeSnapshot, hO, h1]
      by_cases hm : snap.modalStates.length = 0
      · have hfs : serializeFS r rms ts fs
            = fs ++ [(outputFile r._context.config (writeFilename r.toolName ts),
                      renderTabSnapshot snap r._context.config)] := by
          rw [serializeFS_eq]
          simp only [Response.serializeLines, h1, hshould, hm, hO,
            Response._writeDetailedOutputToFile]
          simp
        simp [serializeWroteFile, hfs, kindGatedRoutesToFile, hO]
      · have hfs : serializeFS r rms ts fs
            = fs ++ [(outputFile r._context.config (writeFilename r.toolName ts),
                      joinLines (rms snap.modalStates))] := by
          rw [serializeFS_eq]
          simp only [Response.serializeLines, h1, hshould, hO,
            Response._writeDetailedOutputToFile]
          simp [hm]
        simp [serializeWroteFile, hfs, kindGatedRoutesToFile, hO]

/-- Witness for C3's amended theorem at two concrete Responses: one whose
snapshot has no open modal dialog (the snapshot branch) and one with an
open modal dialog (the modal branch). -/
theorem routing_policy_characterization_witness :
    (addResultWroteFile rSnapOn "short" "console" "2026-10-12T10:00:00.000Z" []
        = sizeGatedRoutesToFile rSnapOn._context.config.outputToFiles ("short".length))
    ∧ (serializeWroteFile rSnapOn (fun _ => []) "2026-10-12T10:00:00.000Z" []
        = kindGatedRoutesToFile rSnapOn._context.config.outputToFiles
            (if snapA.modalStates.length ≠ 0 then joinLines ((fun _ => ([] : List String)) snapA.modalStates)
             else renderTabSnapshot snapA rSnapOn._context.config).length)
    ∧ (serializeWroteFile rModalOn (fun _ => ["modal open"]) "2026-10-12T10:00:00.000Z" []
        = kindGatedRoutesToFile rModalOn._context.config.outputToFiles
            (if snapModal.modalStates.length ≠ 0
             then joinLines ((fun _ => ["modal open"]) snapModal.modalStates)
             else renderTabSnapshot snapModal rModalOn._context.config).length) :=
  ⟨(routing_policy_characterization rSnapOn "short" "console" "2026-10-12T10:00:00.000Z"
      [] (fun _ => []) snapA rfl).1,
   (routing_policy_characterization rSnapOn "short" "console" "2026-10-12T10:00:00.000Z"
      [] (fun _ => []) snapA rfl).2,
   (routing_policy_characterization rModalOn "short" "console" "2026-10-12T10:00:00.000Z"
      [] (fun _ => ["modal open"]) snapModal rfl).2⟩

/-! ## C7: network request rendering of bodies and fallbacks -/

/-- C7: for a GraphQL request with a readable JSON body, the rendered block
contains `Request Body:` with the body; when the response body reads and
parses as JSON, the block contains `Response Body:` with the stringified
parsed body; on parse failure it contains the first 1000 characters of the
raw body after `Response Body (raw):`; when the body read throws, it
contains the `[Unable to read]` placeholder — the renderer is a total
function, so no body-read failure propagates. -/
theorem renderRequest_graphql_bodies (J : Type) (request : NetRequest)
    (resp : NetResponse) (jsonParse : String → Option J) (stringify : J → String)
    (pd : String)
    (hg : jsIncludes request.url "graphql" = true)
    (hpd : request.postData = Except.ok (some pd)) :
    hasSub ("Request Body: " ++ pd)
      (renderRequest request (some resp) jsonParse stringify)
    ∧ (∀ (body : String) (j : J), resp.body = Except.ok body → jsonParse body = some j →
        hasSub ("Response Body: " ++ stringify j)
          (renderRequest request (some resp) jsonParse stringify))
    ∧ (∀ body : String, resp.body = Except.ok body → jsonParse body = none →
        hasSub ("Response Body (raw): " ++ body.take 1000)
          (renderRequest request (some resp) jsonParse stringify))
    ∧ (∀ e : Unit, resp.body = Except.error e →
        hasSub "Response Body: [Unable to read]"
          (renderRequest request (some resp) jsonParse stringify)) := by
  refine ⟨?_, ?_, ?_, ?_⟩
  · simp only [renderRequest, hg, Bool.or_true, if_true, hpd]
    apply mem_joinLines_hasSub
    simp
  · intro body j hb hj
    simp only [renderRequest, hg, Bool.or_true, if_true, hpd, hb, hj]
    apply mem_joinLines_hasSub
    simp
  · intro body hb hj
    simp only [renderRequest, hg, Bool.or_true, if_true, hpd, hb, hj]
    apply mem_joinLines_hasSub
    simp
  · intro e hb
    simp only [renderRequest, hg, Bool.or_true, if_true, hpd, hb]
    apply mem_joinLines_hasSub
    simp

/-- Witness for C7 at a concrete GraphQL request/response pair, with the
identity instantiation of the external JSON functions. -/
theorem renderRequest_graphql_bodies_witness :
    hasSub ("Request Body: " ++ "q1")
      (renderRequest
        { method := "post", url := "https://api.test/graphql",
          contentType := some "application/json",
          postData := Except.ok (some "q1") }
        (some { status := 200, statusText := "OK",
                contentType := some "application/json",
                body := Except.ok "r1" })
        (fun s => some s) (fun s => s))
    ∧ hasSub ("Response Body: " ++ "r1")
      (renderRequest
        { method := "post", url := "https://api.test/graphql",
          contentType := some "application/json",
          postData := Except.ok (some "q1") }
        (some { status := 200, statusText := "OK",
                contentType := some "application/json",
                body := Except.ok "r1" })
        (fun s => some s) (fun s => s)) :=
  ⟨(renderRequest_graphql_bodies String
      { method := "post", url := "https://api.test/graphql",
        contentType := some "application/json",
        postData := Except.ok (some "q1") }
      { status := 200, statusText := "OK",
        contentType := some "application/json", body := Except.ok "r1" }
      (fun s => some s) (fun s => s) "q1" (by decide) rfl).1,
   (renderRequest_graphql_bodies String
      { method := "post", url := "https://api.test/graphql",
        contentType := some "application/json",
        postData := Except.ok (some "q1") }
      { status := 200, statusText := "OK",
        contentType := some "application/json", body := Except.ok "r1" }
      (fun s => some s) (fun s => s) "q1" (by decide) rfl).2.1 "r1" "r1" rfl rfl⟩

/-! ## C8: console-message truncation in `renderTabSnapshot` -/

/-- C8: with file-routing disabled and more than 5 console messages, the
rendered snapshot inlines exactly the first 5 messages (each passed through
`trim · 100`, which appends `...` exactly when the message exceeds 100
characters) followed by one `- ... and N more console messages` line. -/
theorem renderTabSnapshot_console_truncation (tabSnapshot : TabSnapshot)
    (config : FullConfig) (hOff : config.outputToFiles = false)
    (hn : 5 < tabSnapshot.consoleMessages.length) :
    (∃ rest, renderTabSnapshot tabSnapshot config =
      joinLines (("### New console messages"
          :: ((tabSnapshot.consoleMessages.take 5).map fun message =>
                "- " ++ trim message 100))
        ++ ["- ... and " ++ toString (tabSnapshot.consoleMessages.length - 5)
              ++ " more console messages", ""]
        ++ rest))
    ∧ (∀ m : String, m.length ≤ 100 → trim m 100 = m)
    ∧ (∀ m : String, 100 < m.length → trim m 100 = m.take 100 ++ "...") := by
  refine ⟨?_, ?_, ?_⟩
  · have h0 : tabSnapshot.consoleMessages.length ≠ 0 := by omega
    simp only [renderTabSnapshot, hOff, h0, hn, if_true, if_false, ne_eq,
      not_false_eq_true, gt_iff_lt, Bool.false_eq_true, ite_false, ite_true,
      List.append_assoc, List.cons_append, List.nil_append]
    exact ⟨_, rfl⟩
  · intro m h
    rw [trim, if_pos h]
  · intro m h
    rw [trim, if_neg (by omega)]

/-- Witness for C8 at a snapshot with 7 console messages (one longer than
100 characters): exactly the first 5 are inlined and the count line reads
"and 2 more". -/
theorem renderTabSnapshot_console_truncation_witness :
    ∃ rest, renderTabSnapshot snapSeven cfgOff =
      joinLines (("### New console messages"
          :: ((snapSeven.consoleMessages.take 5).map fun message =>
                "- " ++ trim message 100))
        ++ ["- ... and " ++ toString (snapSeven.consoleMessages.length - 5)
              ++ " more console messages", ""]
        ++ rest) :=
  (renderTabSnapshot_console_truncation snapSeven cfgOff rfl (by decide)).1
